import Mathlib

/-!
Verification development for the cloud-errors error-reporting client.

The definitions below are a shallow embedding of the JavaScript sources:
  - `src/classes/list-error-options.js` (the `ListErrorOptions` query builder),
  - `src/interfaces/listErrors.js` (the validating factory `populateRequestOptions`
    and the credential-gated `listErrors` interface),
  - `lib/configuration_new.js` (the `Configuration` settlement state machine),
  - `src/google-apis/errors.js` (the `RequestHandler` dispatcher).

JavaScript runtime values are embedded as the inductive type `JSVal`; the
lodash / `is` helpers used by the sources (`is.string`, `is.number`,
`is.object`, `isEmpty`, `has`, `pickBy`, `transform`) are embedded as the
`js*` functions.  Callbacks are embedded as opaque numeric identifiers and
side effects (event emission, callback invocation, transport requests,
logging) are embedded as explicit result records.
-/

namespace CloudErrors

/-- Embedding of the JavaScript values the library manipulates.  Objects are
association lists of own enumerable properties in insertion order.
`vinherited name` is the value a property read finds on `Object.prototype`
when the key is not an own property of a plain object: a built-in function
(or, for the key `__proto__`, the prototype object itself), kept opaque and
tagged by its name — in every modeled code path only its being distinct from
`undefined` is observable. -/
inductive JSVal : Type where
  | vnull : JSVal
  | vundefined : JSVal
  | vbool : Bool → JSVal
  | vnum : Int → JSVal
  | vstr : String → JSVal
  | vobj : List (String × JSVal) → JSVal
  | vinherited : String → JSVal

/-- Embedding of `is.string`. -/
def jsIsString : JSVal → Bool
  | .vstr _ => true
  | _ => false

/-- Embedding of `is.number`. -/
def jsIsNumber : JSVal → Bool
  | .vnum _ => true
  | _ => false

/-- Embedding of `is.object` (true exactly for plain objects). -/
def jsIsObject : JSVal → Bool
  | .vobj _ => true
  | _ => false

/-- Embedding of lodash `isEmpty`: strings are empty iff textually empty,
objects iff they have no own keys, every other value is empty. -/
def jsIsEmpty : JSVal → Bool
  | .vstr s => s.isEmpty
  | .vobj fs => fs.isEmpty
  | _ => true

/-- First-match association lookup over the own properties of an object
field list; a missing key reads as `undefined`. -/
def lookupField : List (String × JSVal) → String → JSVal
  | [], _ => .vundefined
  | (k0, v0) :: rest, k => if k0 = k then v0 else lookupField rest k

/-- Own-property test on an object field list (lodash `has` checks own
properties only and does not consult the prototype chain). -/
def hasField : List (String × JSVal) → String → Bool
  | [], _ => false
  | (k0, _) :: rest, k => k0 = k || hasField rest k

/-- The own property names of `Object.prototype`: a property read on a plain
object whose key is none of its own properties falls back to these inherited
members before yielding `undefined`. -/
def objectPrototypeMembers : List String :=
  ["constructor", "hasOwnProperty", "isPrototypeOf", "propertyIsEnumerable",
   "toLocaleString", "toString", "valueOf", "__defineGetter__",
   "__defineSetter__", "__lookupGetter__", "__lookupSetter__", "__proto__"]

/-- JavaScript property read `v[k]` (and dot access): an own property wins,
otherwise the prototype chain of a plain object — `Object.prototype` — is
consulted, and only then does the read yield `undefined`.  Non-objects yield
`undefined` here (the sources only read properties after an `is.object`
guard). -/
def jsGet : JSVal → String → JSVal
  | .vobj fs, k =>
    if hasField fs k then lookupField fs k
    else if k ∈ objectPrototypeMembers then .vinherited k
    else .vundefined
  | _, _ => .vundefined

/-- Embedding of lodash `has(v, k)`. -/
def jsHas : JSVal → String → Bool
  | .vobj fs, k => hasField fs k
  | _, _ => false

/-- JavaScript property-key coercion used by computed member access.  No
modeled code path coerces an inherited member to a key; it is rendered as
the native-function source text (`[object Object]` for `__proto__`, whose
inherited value is the prototype object). -/
def jsToPropertyKey : JSVal → String
  | .vnull => "null"
  | .vundefined => "undefined"
  | .vbool b => if b then "true" else "false"
  | .vnum n => toString n
  | .vstr s => s
  | .vobj _ => "[object Object]"
  | .vinherited name =>
    if name = "__proto__" then "[object Object]"
    else "function " ++ name ++ "() \x7b [native code] \x7d"

/-! ## The `ListErrorOptions` query builder (`src/classes/list-error-options.js`) -/

/-- The builder instance: the five own properties set by the constructor, in
insertion order `groupId`, `serviceFilter`, `timeRange`, `pageSize`,
`pageToken`. -/
structure ListErrorOptions : Type where
  groupId : JSVal
  serviceFilter : JSVal
  timeRange : JSVal
  pageSize : JSVal
  pageToken : JSVal

/-- The constructor `new ListErrorOptions()`: `groupId`, `serviceFilter`,
`timeRange` and `pageToken` start as `null`, `pageSize` as the number 10. -/
def ListErrorOptions.init : ListErrorOptions :=
  { groupId := .vnull, serviceFilter := .vnull, timeRange := .vnull,
    pageSize := .vnum 10, pageToken := .vnull }

/-- `ListErrorOptions.validateQueryObjectsForExport`: a record-valued field is
exported iff it is an object and is non-empty. -/
def ListErrorOptions.validateQueryObjectsForExport (v : JSVal) : Bool :=
  jsIsObject v && !jsIsEmpty v

/-- `ListErrorOptions.prefixQueryObjectForExport`: flatten the entries of a
record under `pre.<subkey>` top-level keys (the `transform` call). -/
def ListErrorOptions.prefixQueryObjectForExport (pre : String) (trgObject : JSVal) :
    List (String × JSVal) :=
  match trgObject with
  | .vobj fs => fs.map (fun kv => ((pre ++ ".") ++ kv.1, kv.2))
  | _ => []

/-- `ListErrorOptions.exportFilter()`: the per-field export predicate table. -/
def ListErrorOptions.exportFilter (k : String) : Option (JSVal → Bool) :=
  match k with
  | "groupId" => some jsIsString
  | "serviceFilter" => some ListErrorOptions.validateQueryObjectsForExport
  | "timeRange" => some ListErrorOptions.validateQueryObjectsForExport
  | "pageSize" => some jsIsNumber
  | "pageToken" => some jsIsString
  | _ => none

/-- `ListErrorOptions.timePeriods()`: the enumeration of recognized named
time-range periods. -/
def ListErrorOptions.timePeriods : JSVal :=
  .vobj [("PERIOD_ONE_HOUR", .vstr "PERIOD_ONE_HOUR"),
         ("PERIOD_SIX_HOURS", .vstr "PERIOD_SIX_HOURS"),
         ("PERIOD_ONE_DAY", .vstr "PERIOD_ONE_DAY"),
         ("PERIOD_ONE_WEEK", .vstr "PERIOD_ONE_WEEK"),
         ("PERIOD_30_DAYS", .vstr "PERIOD_30_DAYS")]

/-- `setGroupId`. -/
def ListErrorOptions.setGroupId (o : ListErrorOptions) (groupId : JSVal) :
    ListErrorOptions :=
  { o with groupId := groupId }

/-- `setServiceFilter(service, version, resourceType)`: `pickBy` keeps only the
string-typed subfields, silently dropping the rest. -/
def ListErrorOptions.setServiceFilter (o : ListErrorOptions)
    (service version resourceType : JSVal) : ListErrorOptions :=
  { o with serviceFilter :=
      .vobj (([("service", service), ("version", version),
               ("resourceType", resourceType)]).filter (fun kv => jsIsString kv.2)) }

/-- `setTimeRange(timeRange)`: stores `{period: timePeriods()[timeRange]}`;
an unrecognized key reads `undefined` out of the enumeration record. -/
def ListErrorOptions.setTimeRange (o : ListErrorOptions) (timeRange : JSVal) :
    ListErrorOptions :=
  { o with timeRange :=
      .vobj [("period", jsGet ListErrorOptions.timePeriods (jsToPropertyKey timeRange))] }

/-- `setPageSize`. -/
def ListErrorOptions.setPageSize (o : ListErrorOptions) (pageSize : JSVal) :
    ListErrorOptions :=
  { o with pageSize := pageSize }

/-- `setPageToken`. -/
def ListErrorOptions.setPageToken (o : ListErrorOptions) (pageToken : JSVal) :
    ListErrorOptions :=
  { o with pageToken := pageToken }

/-- The own enumerable properties of the builder instance in insertion order,
as iterated by `pickBy(this, ...)` inside `exportAsRequestOptions`. -/
def ListErrorOptions.fieldsInInsertionOrder (o : ListErrorOptions) :
    List (String × JSVal) :=
  [("groupId", o.groupId), ("serviceFilter", o.serviceFilter),
   ("timeRange", o.timeRange), ("pageSize", o.pageSize),
   ("pageToken", o.pageToken)]

/-- `exportAsRequestOptions()`: keep the fields passing their export predicate,
then flatten the two record-valued fields (`serviceFilter`, `timeRange`, the
keys of `exportTransformer()`) into prefixed top-level entries while copying
the scalar fields through. -/
def ListErrorOptions.exportAsRequestOptions (o : ListErrorOptions) :
    List (String × JSVal) :=
  (o.fieldsInInsertionOrder.filter (fun kv =>
      match ListErrorOptions.exportFilter kv.1 with
      | some p => p kv.2
      | none => false)).flatMap
    (fun kv =>
      if kv.1 = "serviceFilter" || kv.1 = "timeRange" then
        ListErrorOptions.prefixQueryObjectForExport kv.1 kv.2
      else [kv])

/-! ## `populateRequestOptions` and the `listErrors` interface
(`src/interfaces/listErrors.js`) -/

/-- The argument of `populateRequestOptions`: either an arbitrary JavaScript
value or an existing builder instance (the `instanceof ListErrorOptions`
case). -/
inductive UserOptions : Type where
  | jsval : JSVal → UserOptions
  | builderInstance : ListErrorOptions → UserOptions

def groupIdErrorMsg : String :=
  "Must provide a groupId in either the form of a string or an object with a groupId property that is a string."

def serviceFilterObjectErrorMsg : String :=
  "Optional argument property serviceFilter must be of type object if supplied"

def serviceFilterServiceErrorMsg : String :=
  "Optional argument serviceFilter.service must be of type string if supplied"

def serviceFilterVersionErrorMsg : String :=
  "Optional argument serviceFilter.version must be of type string if supplied"

def serviceFilterResourceTypeErrorMsg : String :=
  "Optional argument serviceFilter.resourceType must of type string if supplied"

def timeRangeErrorMsg : String :=
  "Optional argument serviceFilter.timeRange must one of the following if supplied: \nPERIOD_ONE_HOUR, PERIOD_SIX_HOURS, PERIOD_ONE_DAY, PERIOD_ONE_WEEK, PERIOD_30_DAYS"

def pageSizeErrorMsg : String :=
  "Optional argument pageSize must of type number if supplied"

def pageTokenErrorMsg : String :=
  "Optional argument pageToken must be of type string if supplied"

/-- The `serviceFilter` extraction block of `populateRequestOptions`. -/
def extractServiceFilter (userOptions : JSVal) (o : ListErrorOptions) :
    Except String ListErrorOptions :=
  if !jsHas userOptions "serviceFilter" then .ok o
  else if !jsIsObject (jsGet userOptions "serviceFilter") then
    .error serviceFilterObjectErrorMsg
  else if jsHas (jsGet userOptions "serviceFilter") "service"
      && !jsIsString (jsGet (jsGet userOptions "serviceFilter") "service") then
    .error serviceFilterServiceErrorMsg
  else if jsHas (jsGet userOptions "serviceFilter") "version"
      && !jsIsString (jsGet (jsGet userOptions "serviceFilter") "version") then
    .error serviceFilterVersionErrorMsg
  else if jsHas (jsGet userOptions "serviceFilter") "resourceType"
      && !jsIsString (jsGet (jsGet userOptions "serviceFilter") "resourceType") then
    .error serviceFilterResourceTypeErrorMsg
  else
    .ok (o.setServiceFilter (jsGet (jsGet userOptions "serviceFilter") "service")
      (jsGet (jsGet userOptions "serviceFilter") "version")
      (jsGet (jsGet userOptions "serviceFilter") "resourceType"))

/-- The `timeRange` extraction block of `populateRequestOptions`. -/
def extractTimeRange (userOptions : JSVal) (o : ListErrorOptions) :
    Except String ListErrorOptions :=
  if !jsHas userOptions "timeRange" then .ok o
  else if !jsIsString (jsGet userOptions "timeRange")
      || !jsHas ListErrorOptions.timePeriods
           (jsToPropertyKey (jsGet userOptions "timeRange")) then
    .error timeRangeErrorMsg
  else .ok (o.setTimeRange (jsGet userOptions "timeRange"))

/-- The `pageSize` extraction block of `populateRequestOptions`. -/
def extractPageSize (userOptions : JSVal) (o : ListErrorOptions) :
    Except String ListErrorOptions :=
  if !jsHas userOptions "pageSize" then .ok o
  else if !jsIsNumber (jsGet userOptions "pageSize") then .error pageSizeErrorMsg
  else .ok (o.setPageSize (jsGet userOptions "pageSize"))

/-- The `pageToken` extraction block of `populateRequestOptions`. -/
def extractPageToken (userOptions : JSVal) (o : ListErrorOptions) :
    Except String ListErrorOptions :=
  if !jsHas userOptions "pageToken" then .ok o
  else if !jsIsString (jsGet userOptions "pageToken") then .error pageTokenErrorMsg
  else .ok (o.setPageToken (jsGet userOptions "pageToken"))

/-- `populateRequestOptions(userOptions)`: a bare string becomes the
`groupId`, a builder instance passes through, anything else must be an object
with a string `groupId`; the optional fields are then validated in order and
the first failing check produces the returned (never thrown) `Error`. -/
def populateRequestOptions : UserOptions → Except String ListErrorOptions
  | .builderInstance b => .ok b
  | .jsval userOptions =>
    if jsIsString userOptions then
      .ok (ListErrorOptions.init.setGroupId userOptions)
    else if !(jsIsObject userOptions && jsIsString (jsGet userOptions "groupId")) then
      .error groupIdErrorMsg
    else
      (extractServiceFilter userOptions
          (ListErrorOptions.init.setGroupId (jsGet userOptions "groupId"))).bind
        (fun o1 => (extractTimeRange userOptions o1).bind
          (fun o2 => (extractPageSize userOptions o2).bind
            (fun o3 => extractPageToken userOptions o3)))

def credentialsErrorMsg : String := "Valid credentials have not been supplied"

/-- Observable outcome of one call of the interface-level `listErrors`
function produced by `handlerSetup`: the returned value, the synchronous
invocations of the caller-supplied callback (recorded by the error message
passed as the first argument), the requests handed to the injected client,
and whether `populateRequestOptions` ran at all. -/
structure ListErrorsCall : Type where
  returned : Except String ListErrorOptions
  callbackCalls : List String
  clientCalls : List ListErrorOptions
  populateInvoked : Bool

/-- The interface-level `listErrors(userOptions, callback)` closure from
`handlerSetup(client, config)`: when the configuration lacks credentials the
`Error` is returned at once; otherwise the options are validated, a
validation error is both returned and (when a callback function was given)
delivered through it, and a valid builder is forwarded to
`client.listErrors`. -/
def interfaceListErrors (lacksCredentials : Bool) (userOptions : UserOptions)
    (hasCallback : Bool) : ListErrorsCall :=
  if lacksCredentials then
    { returned := .error credentialsErrorMsg, callbackCalls := [],
      clientCalls := [], populateInvoked := false }
  else
    match populateRequestOptions userOptions with
    | .error e =>
      { returned := .error e,
        callbackCalls := if hasCallback then [e] else [],
        clientCalls := [], populateInvoked := true }
    | .ok ro =>
      { returned := .ok ro, callbackCalls := [],
        clientCalls := [ro], populateInvoked := true }

/-! ## The `Configuration` settlement state machine (`lib/configuration_new.js`)

Callbacks registered through `addReadyListener` / `addErrorListener` are
embedded as opaque numeric identifiers; the sources only ever register
genuine functions through these interfaces, so the `isFunction` guard of the
registration branch is always satisfied in the model.  Event emission follows
the `EventEmitter.once` contract used by the listener interfaces: an emission
delivers to every currently registered listener of that event, in
registration order, and removes them. -/

/-- The `{service, version}` service-context record. -/
structure ServiceContext : Type where
  service : String
  version : String

/-- The recognized keys of a runtime-supplied configuration object,
each holding an arbitrary JavaScript value when present. -/
structure GivenConfig : Type where
  projectId : Option JSVal
  key : Option JSVal
  reportUncaughtExceptions : Option JSVal
  serviceContext : Option JSVal

/-- The environment variables consulted during local gathering. -/
structure ConfigEnv : Type where
  gcloudProject : Option String
  gaeModuleName : Option String
  gaeModuleVersion : Option String

/-- The `_projectNumber` slot: the metadata service stores a JavaScript
number, while local gathering stores the numeric-looking string taken from
the environment or the supplied configuration. -/
inductive ProjNum : Type where
  | fromMetadata : Int → ProjNum
  | fromLocal : String → ProjNum

/-- Returns true exactly when the slot holds a metadata-supplied number
(the `isNumber(this._projectNumber)` guard). -/
def ProjNum.isMetadataNumber : Option ProjNum → Bool
  | some (.fromMetadata _) => true
  | _ => false

/-- The mutable state of a `Configuration` instance. -/
structure Configuration : Type where
  initState : Bool
  initError : Option String
  reportUncaughtExceptions : Bool
  shouldReportErrorsToAPI : Bool
  projectId : Option String
  projectNumber : Option ProjNum
  key : Option String
  serviceContext : ServiceContext
  givenConfiguration : Option GivenConfig
  readyListeners : List Nat
  errorListeners : List Nat

/-- The `Configuration` constructor: `givenConfig` is retained only when it is
a plain object (embedded as `Option GivenConfig`), `_shouldReportErrorsToAPI`
is derived from `NODE_ENV === "production"`, and everything else starts at its
documented default.  The constructor also starts the asynchronous metadata
fetch whose callback is `assimilateProjectNumber` below. -/
def mkConfiguration (nodeEnvIsProduction : Bool) (givenConfig : Option GivenConfig) :
    Configuration :=
  { initState := false, initError := none, reportUncaughtExceptions := true,
    shouldReportErrorsToAPI := nodeEnvIsProduction, projectId := none,
    projectNumber := none, key := none,
    serviceContext := { service := "", version := "" },
    givenConfiguration := givenConfig, readyListeners := [], errorListeners := [] }

/-- The string `projectId` of the supplied configuration, when present and a
string (`isString(this._givenConfiguration.projectId)`). -/
def givenProjectIdString (c : Configuration) : Option String :=
  match c.givenConfiguration with
  | some g =>
    match g.projectId with
    | some (.vstr s) => some s
    | _ => none
  | none => none

/-- `_checkLocalProjectId`: a metadata-set value wins; otherwise a non-empty,
non-numeric `GCLOUD_PROJECT`; otherwise a non-empty, non-numeric string
`projectId` from the supplied configuration.  `jsNumeric s` embeds the
JavaScript test `!isNaN(s)` (the string parses as a number). -/
def checkLocalProjectId (jsNumeric : String → Bool) (env : ConfigEnv)
    (c : Configuration) : Configuration :=
  if c.projectId.isSome then c
  else if (match env.gcloudProject with
           | some s => !s.isEmpty && !jsNumeric s
           | none => false) then
    { c with projectId := env.gcloudProject }
  else if (match givenProjectIdString c with
           | some s => !s.isEmpty && !jsNumeric s
           | none => false) then
    { c with projectId := givenProjectIdString c }
  else c

/-- `_checkLocalProjectNumber`: a metadata-set number wins; otherwise a
non-empty numeric `GCLOUD_PROJECT`; otherwise a non-empty numeric string
`projectId` from the supplied configuration. -/
def checkLocalProjectNumber (jsNumeric : String → Bool) (env : ConfigEnv)
    (c : Configuration) : Configuration :=
  if ProjNum.isMetadataNumber c.projectNumber then c
  else if (match env.gcloudProject with
           | some s => !s.isEmpty && jsNumeric s
           | none => false) then
    { c with projectNumber := env.gcloudProject.map ProjNum.fromLocal }
  else if (match givenProjectIdString c with
           | some s => !s.isEmpty && jsNumeric s
           | none => false) then
    { c with projectNumber := (givenProjectIdString c).map ProjNum.fromLocal }
  else c

/-- `_checkLocalServiceContext`: the `GAE_MODULE_NAME` / `GAE_MODULE_VERSION`
variables (defaulting to the empty string), overridden by string-valued
fields of a `serviceContext` object in the supplied configuration.  The
source lines carrying the overrides contain two slips of the pen in the
receiver name; the embedding follows their evident target
`this._serviceContext`. -/
def checkLocalServiceContext (env : ConfigEnv) (c : Configuration) : Configuration :=
  let base : ServiceContext :=
    { service := env.gaeModuleName.getD "", version := env.gaeModuleVersion.getD "" }
  match c.givenConfiguration with
  | some g =>
    match g.serviceContext with
    | some (.vobj fs) =>
      { c with serviceContext :=
          { service := match jsGet (.vobj fs) "service" with
              | .vstr s => s
              | _ => base.service,
            version := match jsGet (.vobj fs) "version" with
              | .vstr s => s
              | _ => base.version } }
    | _ => { c with serviceContext := base }
  | none => { c with serviceContext := base }

/-- The tail block of `_gatherLocalConfiguration`: when the supplied
configuration is a plain object, merge a boolean `reportUncaughtExceptions`
and a string `key` into the instance, ignoring invalid types silently
(the source guard of this block has an unbalanced parenthesis; the embedding
follows the evident `isPlainObject(this._givenConfiguration)` test). -/
def mergeGivenRuntimeFlags (c : Configuration) : Configuration :=
  match c.givenConfiguration with
  | some g =>
    match g.reportUncaughtExceptions, g.key with
    | some (.vbool b), some (.vstr s) =>
      { c with reportUncaughtExceptions := b, key := some s }
    | some (.vbool b), _ => { c with reportUncaughtExceptions := b }
    | _, some (.vstr s) => { c with key := some s }
    | _, _ => c
  | none => c

/-- `_gatherLocalConfiguration`: the three specialized checkers, then the
`reportUncaughtExceptions` and `key` merges from the supplied
configuration. -/
def gatherLocalConfiguration (jsNumeric : String → Bool) (env : ConfigEnv)
    (c : Configuration) : Configuration :=
  mergeGivenRuntimeFlags
    (checkLocalServiceContext env
      (checkLocalProjectNumber jsNumeric env (checkLocalProjectId jsNumeric env c)))

/-- An emission of one of the two lifecycle events.  The `ready` payload is
the instance itself and the `error` payload is the recorded message. -/
inductive EventOcc : Type where
  | readyEv : EventOcc
  | errorEv : String → EventOcc

/-- An invocation of a registered or late-attached listener: `readyCb`
records a call with the instance, `errorCb` a call with the settlement
error. -/
inductive Delivery : Type where
  | readyCb : Nat → Delivery
  | errorCb : Nat → String → Delivery

def integrityErrorMsg : String := "Unable to gather project id or number"

/-- The outcome of one settlement-path invocation: the updated instance, the
events emitted by it and the listener invocations those emissions caused. -/
structure SettleResult : Type where
  config : Configuration
  events : List EventOcc
  delivered : List Delivery

/-- `_checkConfigurationIntegrity`: a second or later invocation returns
without emitting; the first invocation marks the instance settled, then
emits `error` with a fresh `initError` when both identifiers are still null
and `ready` otherwise, delivering to (and consuming) the `once`-registered
listeners of the emitted event. -/
def checkConfigurationIntegrity (c : Configuration) : SettleResult :=
  if c.initState then { config := c, events := [], delivered := [] }
  else
    if c.projectId.isNone && c.projectNumber.isNone then
      { config := { c with initState := true, initError := some integrityErrorMsg, errorListeners := [] },
        events := [.errorEv integrityErrorMsg],
        delivered := c.errorListeners.map (fun cb => .errorCb cb integrityErrorMsg) }
    else
      { config := { c with initState := true, readyListeners := [] },
        events := [.readyEv],
        delivered := c.readyListeners.map (fun cb => .readyCb cb) }

/-- The settlement path run from the metadata callback: local gathering
followed by the integrity check. -/
def settlementPath (jsNumeric : String → Bool) (env : ConfigEnv)
    (c : Configuration) : SettleResult :=
  checkConfigurationIntegrity (gatherLocalConfiguration jsNumeric env c)

/-- The assignment step of `_assimilateProjectNumber(err, projectNum)`: the
metadata value is stored only when the callback reports success with a number
(`isUndefined(err) && isNumber(projectNum)`); any other outcome only logs. -/
def metadataAssimilate (err projectNum : JSVal) (c : Configuration) : Configuration :=
  match err, projectNum with
  | .vundefined, .vnum n => { c with projectNumber := some (.fromMetadata n) }
  | _, _ => c

/-- `_assimilateProjectNumber(err, projectNum)`: store the metadata value on
success, then run local gathering and the integrity check either way. -/
def assimilateProjectNumber (jsNumeric : String → Bool) (env : ConfigEnv)
    (err projectNum : JSVal) (c : Configuration) : SettleResult :=
  settlementPath jsNumeric env (metadataAssimilate err projectNum c)

/-- `addReadyListener(callback)`: before settlement the callback is
`once`-registered; after a successful settlement it is called back
immediately with the instance; after a failed settlement nothing happens. -/
def addReadyListener (c : Configuration) (callback : Nat) :
    Configuration × List Delivery :=
  if c.initState = false then
    ({ c with readyListeners := c.readyListeners ++ [callback] }, [])
  else if c.initError.isNone then (c, [.readyCb callback])
  else (c, [])

/-- `addErrorListener(callback)`: before settlement the callback is
`once`-registered; after a failed settlement it is called back immediately
with the settlement error; after a successful settlement nothing happens. -/
def addErrorListener (c : Configuration) (callback : Nat) :
    Configuration × List Delivery :=
  if c.initState = false then
    ({ c with errorListeners := c.errorListeners ++ [callback] }, [])
  else
    match c.initError with
    | some e => (c, [.errorCb callback e])
    | none => (c, [])

/-- One externally triggerable step in the life of a `Configuration`
instance: the metadata callback, a re-run of the settlement path, or a
listener registration. -/
inductive ConfigAction : Type where
  | assimilateNumber : JSVal → JSVal → ConfigAction
  | resettle : ConfigAction
  | addReady : Nat → ConfigAction
  | addError : Nat → ConfigAction

/-- Whether an action invokes the settlement path. -/
def ConfigAction.isSettlement : ConfigAction → Bool
  | .assimilateNumber _ _ => true
  | .resettle => true
  | _ => false

/-- Apply one action to an instance. -/
def applyConfigAction (jsNumeric : String → Bool) (env : ConfigEnv)
    (a : ConfigAction) (c : Configuration) : SettleResult :=
  match a with
  | .assimilateNumber e p => assimilateProjectNumber jsNumeric env e p c
  | .resettle => settlementPath jsNumeric env c
  | .addReady cb =>
    { config := (addReadyListener c cb).1, events := [],
      delivered := (addReadyListener c cb).2 }
  | .addError cb =>
    { config := (addErrorListener c cb).1, events := [],
      delivered := (addErrorListener c cb).2 }

/-- Run a sequence of actions, collecting every event emitted along the
way. -/
def runConfigActions (jsNumeric : String → Bool) (env : ConfigEnv) :
    List ConfigAction → Configuration → Configuration × List EventOcc
  | [], c => (c, [])
  | a :: rest, c =>
    let r := applyConfigAction jsNumeric env a c
    let tail := runConfigActions jsNumeric env rest r.config
    (tail.1, r.events ++ tail.2)

/-! ## The `RequestHandler` dispatcher (`src/google-apis/errors.js`)

The configuration consumed here is the injected capability the dispatcher
reads: the reporting-enabled flag, the asynchronous project-id resolution
outcome and the optional API key.  The transport is the injected authorized
request function; its outcome for the single request a call can issue is a
parameter, and the record returned by each operation lists the requests
actually handed to it, the invocations of the caller-supplied callback and
the logged error messages. -/

structure RequestHandlerConfig : Type where
  shouldReportErrorsToAPI : Bool
  projectIdResult : Except String String
  key : Option String

structure TransportResult : Type where
  err : Option String
  response : Option Nat
  body : Option String

structure DispatchRecord : Type where
  transportRequests : List (String × String)
  userCallbackCalls : List (Option String × Option Nat × Option String)
  loggedErrors : List String

/-- The `ClientNotConfiguredToSendErrors` message (the source joins its
fragments with single spaces, one fragment ending in a space of its own). -/
def clientNotConfiguredMsg : String :=
  "Stackdriver error reporting client has not been configured to send errors, please check the NODE_ENV environment variable and make sure it is set to \"production\" or set the ignoreEnvironmentCheck property to  true in the runtime configuration object"

/-- The `UnableToRetrieveProjectId` message. -/
def unableToRetrieveProjectIdMsg (errMsg : String) : String :=
  "Unable to retrieve a project id from the Google Metadata Service or the local environment. Client will not be able to communicate with the Stackdriver Error Reporting API without a valid project id Please make sure to supply a project id either through the GCLOUD_PROJECT environmental variable or through the configuration object given to this library on startup if not running on Google Cloud Platform.\n Returned error message: \n " ++ errMsg

/-- The `BadAPIInteraction` message wrapping a transport failure. -/
def badAPIInteractionMsg (intendedAction errMsg : String) : String :=
  "Encountered an error while attempting to " ++ intendedAction ++
    " \nOriginal Error Message:\n " ++ errMsg

/-- `requestPreflight(userCb, readyCb)`: reporting disabled short-circuits
with the configuration error; otherwise the asynchronous project-id lookup
either yields the id or the identifier-resolution error.  The returned pair
is the `(err, id)` outcome handed to `readyCb` together with the error
messages logged on the way. -/
def requestPreflight (cfg : RequestHandlerConfig) :
    Except String String × List String :=
  if !cfg.shouldReportErrorsToAPI then
    (.error clientNotConfiguredMsg, [clientNotConfiguredMsg])
  else
    match cfg.projectIdResult with
    | .error em =>
      (.error (unableToRetrieveProjectIdMsg em), [unableToRetrieveProjectIdMsg em])
    | .ok id => (.ok id, [])

/-- `getAPIKeyOptions()`. -/
def getAPIKeyOptions (cfg : RequestHandlerConfig) : List (String × JSVal) :=
  match cfg.key with
  | some k => [("key", .vstr k)]
  | none => []

/-- The coercion `querystring.stringify` applies to a query value. -/
def queryStringCoerce : JSVal → String
  | .vstr s => s
  | .vnum n => toString n
  | .vbool b => if b then "true" else "false"
  | _ => ""

/-- `querystring.stringify` over a flat query object. -/
def stringifyQuery (q : List (String × JSVal)) : String :=
  String.intercalate "&" (q.map (fun kv => kv.1 ++ "=" ++ queryStringCoerce kv.2))

/-- `manufactureAPIHref(projectId, endpoint, query)`: `Array.join` renders a
null project id as the empty segment, and an empty query object appends no
query string. -/
def manufactureAPIHref (projectId : Option String) (endpoint : String)
    (query : List (String × JSVal)) : String :=
  "https://clouderrorreporting.googleapis.com/v1beta1/projects" ++ "/" ++
    (match projectId with | some s => s | none => "") ++ "/" ++ endpoint ++
    (if query.isEmpty then "" else "?" ++ stringifyQuery query)

/-- `RequestHandler.prototype.sendError`: on a preflight error the callback
receives `(err, null, null)` and no request is made; otherwise the report
request is issued and the transport outcome is logged (on error) and
forwarded to the callback. -/
def RequestHandler.sendError (cfg : RequestHandlerConfig) (hasUserCb : Bool)
    (transport : TransportResult) : DispatchRecord :=
  match requestPreflight cfg with
  | (.error e, logs) =>
    { transportRequests := [],
      userCallbackCalls := if hasUserCb then [(some e, none, none)] else [],
      loggedErrors := logs }
  | (.ok id, logs) =>
    { transportRequests :=
        [(manufactureAPIHref (some id) "events:report" (getAPIKeyOptions cfg), "POST")],
      userCallbackCalls :=
        if hasUserCb then [(transport.err, transport.response, transport.body)] else [],
      loggedErrors := logs ++ (match transport.err with
        | some m => [badAPIInteractionMsg "write an error to the API" m]
        | none => []) }

/-- `RequestHandler.prototype.deleteAllErrors`: same preflight short-circuit
as `sendError`, then the DELETE request. -/
def RequestHandler.deleteAllErrors (cfg : RequestHandlerConfig) (hasUserCb : Bool)
    (transport : TransportResult) : DispatchRecord :=
  match requestPreflight cfg with
  | (.error e, logs) =>
    { transportRequests := [],
      userCallbackCalls := if hasUserCb then [(some e, none, none)] else [],
      loggedErrors := logs }
  | (.ok id, logs) =>
    { transportRequests :=
        [(manufactureAPIHref (some id) "events" (getAPIKeyOptions cfg), "DELETE")],
      userCallbackCalls :=
        if hasUserCb then [(transport.err, transport.response, transport.body)] else [],
      loggedErrors := logs ++ (match transport.err with
        | some m => [badAPIInteractionMsg ("delete all errors from project: " ++ id) m]
        | none => []) }

/-- `RequestHandler.prototype.listErrors`: unlike its two siblings, the
callback passed to `requestPreflight` never examines the `err` argument, so
the GET request is issued unconditionally — on the preflight error path the
id is null, giving an empty project segment in the URL and the string
`"null"` in the logged wrapper — and the callback receives the transport
outcome rather than the preflight error. -/
def RequestHandler.listErrors (cfg : RequestHandlerConfig)
    (listErrorOptions : ListErrorOptions) (hasUserCb : Bool)
    (transport : TransportResult) : DispatchRecord :=
  let pre := requestPreflight cfg
  let id : Option String := match pre.1 with
    | .ok i => some i
    | .error _ => none
  let idText : String := match id with
    | some s => s
    | none => "null"
  let opts := getAPIKeyOptions cfg ++ listErrorOptions.exportAsRequestOptions
  { transportRequests := [(manufactureAPIHref id "events" opts, "GET")],
    userCallbackCalls :=
      if hasUserCb then [(transport.err, transport.response, transport.body)] else [],
    loggedErrors := pre.2 ++ (match transport.err with
      | some m => [badAPIInteractionMsg ("list errors from project " ++ idText) m]
      | none => []) }

/-- Whether a flat exported mapping contains a key of the form
`pre<rest>`, e.g. a `serviceFilter.`-prefixed key. -/
def keyWithDotPrefix (pre : String) (entries : List (String × JSVal)) : Prop :=
  ∃ kv ∈ entries, ∃ rest, kv.1 = pre ++ rest

/-- A concrete instance settled successfully: no environment or supplied
configuration, metadata callback succeeding with the project number 42. -/
def settledReadyExample : Configuration :=
  (assimilateProjectNumber (fun _ => false)
    { gcloudProject := none, gaeModuleName := none, gaeModuleVersion := none }
    .vundefined (.vnum 42) (mkConfiguration false none)).config

/-- A concrete instance settled to failure: no environment or supplied
configuration and a failed metadata callback, leaving both identifiers
unset. -/
def settledFailedExample : Configuration :=
  (assimilateProjectNumber (fun _ => false)
    { gcloudProject := none, gaeModuleName := none, gaeModuleVersion := none }
    .vnull .vnull (mkConfiguration false none)).config

/-! ## Supporting lemmas -/

/-- A string strictly shorter than `p` is never of the form `p ++ s`. -/
theorem ne_append_of_length_lt (t p : String) (h : t.length < p.length) (s : String) :
    t ≠ p ++ s := by
  intro he
  have hl := congrArg String.length he
  rw [String.length_append] at hl
  omega

/-- Two strings whose leading characters differ stay different under any
suffixes. -/
theorem ne_append_of_head_ne (p q : String) (cp cq : Char)
    (hp : p.data.head? = some cp) (hq : q.data.head? = some cq) (hne : cp ≠ cq)
    (s1 s2 : String) : p ++ s1 ≠ q ++ s2 := by
  intro he
  have hd := congrArg (fun t : String => t.data.head?) he
  simp only [String.data_append] at hd
  cases hp' : p.data with
  | nil => rw [hp'] at hp; exact absurd hp (by simp)
  | cons c cs =>
    cases hq' : q.data with
    | nil => rw [hq'] at hq; exact absurd hq (by simp)
    | cons d ds =>
      rw [hp'] at hp hd
      rw [hq'] at hq hd
      simp only [List.cons_append, List.head?_cons, Option.some.injEq] at hp hq hd
      exact hne (by rw [hp, hq] at hd; exact hd ▸ rfl)

/-- Closed form of `exportAsRequestOptions`: the concatenation of the five
per-field segments, each present exactly when its export predicate holds. -/
theorem exportAsRequestOptions_eq (o : ListErrorOptions) :
    o.exportAsRequestOptions =
      (if jsIsString o.groupId then [("groupId", o.groupId)] else []) ++
      (if ListErrorOptions.validateQueryObjectsForExport o.serviceFilter then
        ListErrorOptions.prefixQueryObjectForExport "serviceFilter" o.serviceFilter
      else []) ++
      (if ListErrorOptions.validateQueryObjectsForExport o.timeRange then
        ListErrorOptions.prefixQueryObjectForExport "timeRange" o.timeRange
      else []) ++
      (if jsIsNumber o.pageSize then [("pageSize", o.pageSize)] else []) ++
      (if jsIsString o.pageToken then [("pageToken", o.pageToken)] else []) := by
  unfold ListErrorOptions.exportAsRequestOptions ListErrorOptions.fieldsInInsertionOrder
  cases h1 : jsIsString o.groupId <;>
    cases h2 : ListErrorOptions.validateQueryObjectsForExport o.serviceFilter <;>
      cases h3 : ListErrorOptions.validateQueryObjectsForExport o.timeRange <;>
        cases h4 : jsIsNumber o.pageSize <;>
          cases h5 : jsIsString o.pageToken <;>
            simp [ListErrorOptions.exportFilter, h1, h2, h3, h4, h5]

/-- Every key of an exported mapping is `groupId`, `pageSize`, `pageToken`,
a `serviceFilter.`-prefixed key (only when the `serviceFilter` field passes
its export predicate) or a `timeRange.`-prefixed key (only when the
`timeRange` field passes its export predicate). -/
theorem export_key_cases (b : ListErrorOptions) (kv : String × JSVal)
    (hmem : kv ∈ b.exportAsRequestOptions) :
    kv.1 = "groupId" ∨ kv.1 = "pageSize" ∨ kv.1 = "pageToken" ∨
    (ListErrorOptions.validateQueryObjectsForExport b.serviceFilter = true ∧
      ∃ sub, kv.1 = "serviceFilter." ++ sub) ∨
    (ListErrorOptions.validateQueryObjectsForExport b.timeRange = true ∧
      ∃ sub, kv.1 = "timeRange." ++ sub) := by
  rw [exportAsRequestOptions_eq] at hmem
  simp only [List.mem_append] at hmem
  rcases hmem with (((h | h) | h) | h) | h
  · by_cases hc : jsIsString b.groupId
    · rw [if_pos hc] at h
      simp only [List.mem_singleton] at h
      exact Or.inl (by rw [h])
    · rw [if_neg hc] at h
      exact absurd h (List.not_mem_nil kv)
  · by_cases hc : ListErrorOptions.validateQueryObjectsForExport b.serviceFilter
    · rw [if_pos hc] at h
      refine Or.inr (Or.inr (Or.inr (Or.inl ⟨hc, ?_⟩)))
      unfold ListErrorOptions.prefixQueryObjectForExport at h
      cases hb : b.serviceFilter with
      | vobj fs =>
        rw [hb] at h
        simp only [List.mem_map] at h
        obtain ⟨a, _, ha⟩ := h
        refine ⟨a.1, ?_⟩
        rw [← ha]
        rw [show ("serviceFilter" ++ "." : String) = "serviceFilter." from rfl]
      | vnull => rw [hb] at h; exact absurd h (List.not_mem_nil kv)
      | vundefined => rw [hb] at h; exact absurd h (List.not_mem_nil kv)
      | vbool x => rw [hb] at h; exact absurd h (List.not_mem_nil kv)
      | vnum x => rw [hb] at h; exact absurd h (List.not_mem_nil kv)
      | vstr x => rw [hb] at h; exact absurd h (List.not_mem_nil kv)
      | vinherited x => rw [hb] at h; exact absurd h (List.not_mem_nil kv)
    · rw [if_neg hc] at h
      exact absurd h (List.not_mem_nil kv)
  · by_cases hc : ListErrorOptions.validateQueryObjectsForExport b.timeRange
    · rw [if_pos hc] at h
      refine Or.inr (Or.inr (Or.inr (Or.inr ⟨hc, ?_⟩)))
      unfold ListErrorOptions.prefixQueryObjectForExport at h
      cases hb : b.timeRange with
      | vobj fs =>
        rw [hb] at h
        simp only [List.mem_map] at h
        obtain ⟨a, _, ha⟩ := h
        refine ⟨a.1, ?_⟩
        rw [← ha]
        rw [show ("timeRange" ++ "." : String) = "timeRange." from rfl]
      | vnull => rw [hb] at h; exact absurd h (List.not_mem_nil kv)
      | vundefined => rw [hb] at h; exact absurd h (List.not_mem_nil kv)
      | vbool x => rw [hb] at h; exact absurd h (List.not_mem_nil kv)
      | vnum x => rw [hb] at h; exact absurd h (List.not_mem_nil kv)
      | vstr x => rw [hb] at h; exact absurd h (List.not_mem_nil kv)
      | vinherited x => rw [hb] at h; exact absurd h (List.not_mem_nil kv)
    · rw [if_neg hc] at h
      exact absurd h (List.not_mem_nil kv)
  · by_cases hc : jsIsNumber b.pageSize
    · rw [if_pos hc] at h
      simp only [List.mem_singleton] at h
      exact Or.inr (Or.inl (by rw [h]))
    · rw [if_neg hc] at h
      exact absurd h (List.not_mem_nil kv)
  · by_cases hc : jsIsString b.pageToken
    · rw [if_pos hc] at h
      simp only [List.mem_singleton] at h
      exact Or.inr (Or.inr (Or.inl (by rw [h])))
    · rw [if_neg hc] at h
      exact absurd h (List.not_mem_nil kv)

/-! ## Claim theorems -/

/-- Claim C4, counterexample: after `setTimeRange` with the
`PERIOD_ONE_HOUR` token on a fresh builder, the export is not the claimed
one-entry mapping: the default `pageSize` of 10 is a number, passes the
export filter and is exported as well. -/
theorem export_after_setTimeRange_not_singleton :
    (ListErrorOptions.init.setTimeRange (.vstr "PERIOD_ONE_HOUR")).exportAsRequestOptions ≠
      [("timeRange.period", JSVal.vstr "PERIOD_ONE_HOUR")] := by
  intro h
  have hl : (2 : Nat) = 1 := congrArg List.length h
  exact absurd hl (by decide)

/-- Claim C4 as amended: on a fresh builder, `setTimeRange` with the
`PERIOD_ONE_HOUR` token followed by `exportAsRequestOptions()` yields exactly
the two-entry flat mapping carrying the flattened time range and the default
`pageSize` of 10, in that order. -/
theorem export_after_setTimeRange_two_entries :
    (ListErrorOptions.init.setTimeRange (.vstr "PERIOD_ONE_HOUR")).exportAsRequestOptions =
      [("timeRange.period", JSVal.vstr "PERIOD_ONE_HOUR"), ("pageSize", JSVal.vnum 10)] := rfl

/-- Claim C7: whenever the `serviceFilter` (resp. `timeRange`) field of a
builder holds an empty record, the exported mapping contains no
`serviceFilter.`-prefixed (resp. `timeRange.`-prefixed) key at all. -/
theorem empty_record_fields_omitted_from_export (b : ListErrorOptions) :
    (b.serviceFilter = .vobj [] →
      ¬ keyWithDotPrefix "serviceFilter." b.exportAsRequestOptions) ∧
    (b.timeRange = .vobj [] →
      ¬ keyWithDotPrefix "timeRange." b.exportAsRequestOptions) := by
  constructor
  · intro hsf hex
    obtain ⟨kv, hmem, rest, hkey⟩ := hex
    rcases export_key_cases b kv hmem with h | h | h | ⟨hc, sub, hs⟩ | ⟨hc, sub, hs⟩
    · rw [h] at hkey
      exact absurd hkey (ne_append_of_length_lt "groupId" "serviceFilter." (by decide) rest)
    · rw [h] at hkey
      exact absurd hkey (ne_append_of_length_lt "pageSize" "serviceFilter." (by decide) rest)
    · rw [h] at hkey
      exact absurd hkey (ne_append_of_length_lt "pageToken" "serviceFilter." (by decide) rest)
    · rw [hsf] at hc
      exact absurd hc (by decide)
    · rw [hs] at hkey
      exact absurd hkey
        (ne_append_of_head_ne "timeRange." "serviceFilter." 't' 's'
          (by decide) (by decide) (by decide) sub rest)
  · intro htr hex
    obtain ⟨kv, hmem, rest, hkey⟩ := hex
    rcases export_key_cases b kv hmem with h | h | h | ⟨hc, sub, hs⟩ | ⟨hc, sub, hs⟩
    · rw [h] at hkey
      exact absurd hkey (ne_append_of_length_lt "groupId" "timeRange." (by decide) rest)
    · rw [h] at hkey
      exact absurd hkey (ne_append_of_length_lt "pageSize" "timeRange." (by decide) rest)
    · rw [h] at hkey
      exact absurd hkey (ne_append_of_length_lt "pageToken" "timeRange." (by decide) rest)
    · rw [hs] at hkey
      exact absurd hkey
        (ne_append_of_head_ne "serviceFilter." "timeRange." 's' 't'
          (by decide) (by decide) (by decide) sub rest)
    · rw [htr] at hc
      exact absurd hc (by decide)

/-- Witness for C7: `setServiceFilter(null, {}, 123)` drops all three
non-string subfields, leaving an empty record, so the export of that builder
has no `serviceFilter.`-prefixed key. -/
theorem empty_record_fields_omitted_from_export_witness :
    ¬ keyWithDotPrefix "serviceFilter."
      ((ListErrorOptions.init.setServiceFilter .vnull (.vobj []) (.vnum 123)).exportAsRequestOptions) :=
  (empty_record_fields_omitted_from_export
    (ListErrorOptions.init.setServiceFilter .vnull (.vobj []) (.vnum 123))).1 rfl

/-- Claim C8: `populateRequestOptions` returns (never throws) the validation
error of the first invalid field it encounters, stopping there without
accumulating further errors.  Each conjunct exercises one error class; in
several of them a later field is also invalid, yet the returned error is the
first one in field order (`groupId`, `serviceFilter` and its subfields,
`timeRange`, `pageSize`, `pageToken`).  In particular the input
`{serviceFilter: {version: 123}}` lacks a `groupId`, so the returned error is
the `groupId` validation error. -/
theorem populateRequestOptions_first_error_returned :
    populateRequestOptions
        (.jsval (.vobj [("serviceFilter", .vobj [("version", .vnum 123)])])) =
      .error groupIdErrorMsg ∧
    populateRequestOptions
        (.jsval (.vobj [("groupId", .vnum 1), ("pageSize", .vstr "x")])) =
      .error groupIdErrorMsg ∧
    populateRequestOptions (.jsval (.vnum 7)) = .error groupIdErrorMsg ∧
    populateRequestOptions
        (.jsval (.vobj [("groupId", .vstr "g"), ("serviceFilter", .vnum 1),
                        ("pageToken", .vnum 2)])) =
      .error serviceFilterObjectErrorMsg ∧
    populateRequestOptions
        (.jsval (.vobj [("groupId", .vstr "g"),
                        ("serviceFilter", .vobj [("service", .vnum 1)]),
                        ("pageSize", .vstr "x")])) =
      .error serviceFilterServiceErrorMsg ∧
    populateRequestOptions
        (.jsval (.vobj [("groupId", .vstr "g"),
                        ("serviceFilter", .vobj [("version", .vnum 123)])])) =
      .error serviceFilterVersionErrorMsg ∧
    populateRequestOptions
        (.jsval (.vobj [("groupId", .vstr "g"),
                        ("serviceFilter", .vobj [("resourceType", .vbool false)]),
                        ("timeRange", .vstr "XYZ")])) =
      .error serviceFilterResourceTypeErrorMsg ∧
    populateRequestOptions
        (.jsval (.vobj [("groupId", .vstr "g"), ("timeRange", .vstr "XYZ"),
                        ("pageToken", .vnum 1)])) =
      .error timeRangeErrorMsg ∧
    populateRequestOptions
        (.jsval (.vobj [("groupId", .vstr "g"), ("timeRange", .vbool true)])) =
      .error timeRangeErrorMsg ∧
    populateRequestOptions
        (.jsval (.vobj [("groupId", .vstr "g"), ("pageSize", .vstr "1"),
                        ("pageToken", .vnum 1)])) =
      .error pageSizeErrorMsg ∧
    populateRequestOptions
        (.jsval (.vobj [("groupId", .vstr "g"), ("pageToken", .vnum 1)])) =
      .error pageTokenErrorMsg :=
  ⟨rfl, rfl, rfl, rfl, rfl, rfl, rfl, rfl, rfl, rfl, rfl⟩

/-- Claim C9: `populateRequestOptions` on the bare string is equivalent to
`populateRequestOptions` on an object holding that string as its `groupId`:
both succeed with identical builder state — the group id, no service filter,
no time range, the default page size 10 and no page token — and hence an
identical export. -/
theorem populateRequestOptions_string_object_equivalence :
    populateRequestOptions (.jsval (.vstr "xyz")) =
      populateRequestOptions (.jsval (.vobj [("groupId", .vstr "xyz")])) ∧
    populateRequestOptions (.jsval (.vstr "xyz")) =
      .ok { groupId := .vstr "xyz", serviceFilter := .vnull, timeRange := .vnull,
            pageSize := .vnum 10, pageToken := .vnull } ∧
    (ListErrorOptions.init.setGroupId (.vstr "xyz")).exportAsRequestOptions =
      [("groupId", JSVal.vstr "xyz"), ("pageSize", JSVal.vnum 10)] :=
  ⟨rfl, rfl, rfl⟩

/-- Claim C10, counterexample: `setTimeRange('toString')` does not store
`{period: undefined}` — the bracket lookup on the period enumeration misses
every own key and falls back to the prototype chain, finding the inherited
`Object.prototype.toString` function and storing it as the period. -/
theorem setTimeRange_prototype_member_counterexample :
    (ListErrorOptions.init.setTimeRange (.vstr "toString")).timeRange =
      .vobj [("period", JSVal.vinherited "toString")] ∧
    ¬ ((ListErrorOptions.init.setTimeRange (.vstr "toString")).timeRange =
      .vobj [("period", JSVal.vundefined)]) := by
  refine ⟨rfl, fun h => ?_⟩
  rw [show (ListErrorOptions.init.setTimeRange (.vstr "toString")).timeRange =
    JSVal.vobj [("period", JSVal.vinherited "toString")] from rfl] at h
  simp at h

/-- Claim C10 as amended: calling `setTimeRange` directly with a string that
is neither one of the five recognized period keys nor the name of an
inherited `Object.prototype` member stores `{period: undefined}`; that
record has an own key, so it passes the non-empty-object export predicate,
and the export therefore contains a `timeRange.period` entry bound to
`undefined` (here alongside the always-exported default `pageSize`) instead
of omitting the field.  (For a string naming an `Object.prototype` member
the lookup stores the inherited member as the period instead.) -/
theorem setTimeRange_unrecognized_key_exports_undefined_period (s : String)
    (h : s ∉ ["PERIOD_ONE_HOUR", "PERIOD_SIX_HOURS", "PERIOD_ONE_DAY",
              "PERIOD_ONE_WEEK", "PERIOD_30_DAYS"])
    (hp : s ∉ objectPrototypeMembers) :
    (ListErrorOptions.init.setTimeRange (.vstr s)).timeRange =
      .vobj [("period", JSVal.vundefined)] ∧
    ListErrorOptions.validateQueryObjectsForExport
      ((ListErrorOptions.init.setTimeRange (.vstr s)).timeRange) = true ∧
    (ListErrorOptions.init.setTimeRange (.vstr s)).exportAsRequestOptions =
      [("timeRange.period", JSVal.vundefined), ("pageSize", JSVal.vnum 10)] := by
  have h1 : ¬ ("PERIOD_ONE_HOUR" = s) := fun he => h (by rw [← he]; simp)
  have h2 : ¬ ("PERIOD_SIX_HOURS" = s) := fun he => h (by rw [← he]; simp)
  have h3 : ¬ ("PERIOD_ONE_DAY" = s) := fun he => h (by rw [← he]; simp)
  have h4 : ¬ ("PERIOD_ONE_WEEK" = s) := fun he => h (by rw [← he]; simp)
  have h5 : ¬ ("PERIOD_30_DAYS" = s) := fun he => h (by rw [← he]; simp)
  have hget : jsGet ListErrorOptions.timePeriods s = .vundefined := by
    simp [jsGet, ListErrorOptions.timePeriods, hasField, h1, h2, h3, h4, h5, hp]
  have hb : ListErrorOptions.init.setTimeRange (.vstr s) =
      { groupId := .vnull, serviceFilter := .vnull,
        timeRange := .vobj [("period", JSVal.vundefined)],
        pageSize := .vnum 10, pageToken := .vnull } := by
    unfold ListErrorOptions.setTimeRange ListErrorOptions.init
    rw [show jsToPropertyKey (.vstr s) = s from rfl, hget]
  rw [hb]
  exact ⟨rfl, rfl, rfl⟩

/-- Witness for C10 at the key `PERIOD_TWO_HOURS`, which is neither a period
key nor an inherited `Object.prototype` member. -/
theorem setTimeRange_unrecognized_key_witness :
    (ListErrorOptions.init.setTimeRange (.vstr "PERIOD_TWO_HOURS")).timeRange =
      .vobj [("period", JSVal.vundefined)] ∧
    ListErrorOptions.validateQueryObjectsForExport
      ((ListErrorOptions.init.setTimeRange (.vstr "PERIOD_TWO_HOURS")).timeRange) = true ∧
    (ListErrorOptions.init.setTimeRange (.vstr "PERIOD_TWO_HOURS")).exportAsRequestOptions =
      [("timeRange.period", JSVal.vundefined), ("pageSize", JSVal.vnum 10)] :=
  setTimeRange_unrecognized_key_exports_undefined_period "PERIOD_TWO_HOURS"
    (by decide) (by decide)

/-- Claim C6, counterexample: when the configuration lacks credentials and the
caller did supply a callback, the interface-level `listErrors` does not
deliver the error through the callback — it performs no callback invocation
at all and only returns the error. -/
theorem lacking_credentials_callback_not_invoked :
    (interfaceListErrors true (UserOptions.jsval (.vstr "xyz")) true).callbackCalls = [] ∧
    (interfaceListErrors true (UserOptions.jsval (.vstr "xyz")) true).returned =
      .error credentialsErrorMsg :=
  ⟨rfl, rfl⟩

/-- Claim C6 as amended: when the configuration lacks credentials, the
interface-level `listErrors` short-circuits by returning the credentials
error directly to the caller — whether or not a callback was supplied, and
without invoking the callback — making no client request and never building
request options. -/
theorem lacking_credentials_error_returned_directly (userOptions : UserOptions)
    (hasCallback : Bool) :
    interfaceListErrors true userOptions hasCallback =
      { returned := .error credentialsErrorMsg, callbackCalls := [],
        clientCalls := [], populateInvoked := false } := rfl

/-- Claim C3, failing-input evaluation: with reporting disabled the preflight
reports the configuration error, and `sendError` and `deleteAllErrors` both
short-circuit — no transport request, the error delivered to the callback —
but `listErrors` still issues its GET request (with an empty project segment
in the URL) and hands the callback the transport outcome instead of the
preflight error. -/
theorem listErrors_dispatch_ignores_preflight_error :
    (RequestHandler.sendError
        { shouldReportErrorsToAPI := false, projectIdResult := .ok "my-project", key := none }
        true { err := none, response := some 200, body := some "body" }).transportRequests = [] ∧
    (RequestHandler.sendError
        { shouldReportErrorsToAPI := false, projectIdResult := .ok "my-project", key := none }
        true { err := none, response := some 200, body := some "body" }).userCallbackCalls =
      [(some clientNotConfiguredMsg, none, none)] ∧
    (RequestHandler.deleteAllErrors
        { shouldReportErrorsToAPI := false, projectIdResult := .ok "my-project", key := none }
        true { err := none, response := some 200, body := some "body" }).transportRequests = [] ∧
    (RequestHandler.deleteAllErrors
        { shouldReportErrorsToAPI := false, projectIdResult := .ok "my-project", key := none }
        true { err := none, response := some 200, body := some "body" }).userCallbackCalls =
      [(some clientNotConfiguredMsg, none, none)] ∧
    (RequestHandler.listErrors
        { shouldReportErrorsToAPI := false, projectIdResult := .ok "my-project", key := none }
        (ListErrorOptions.init.setGroupId (.vstr "xyz"))
        true { err := none, response := some 200, body := some "body" }).transportRequests =
      [("https://clouderrorreporting.googleapis.com/v1beta1/projects//events?groupId=xyz&pageSize=10",
        "GET")] ∧
    (RequestHandler.listErrors
        { shouldReportErrorsToAPI := false, projectIdResult := .ok "my-project", key := none }
        (ListErrorOptions.init.setGroupId (.vstr "xyz"))
        true { err := none, response := some 200, body := some "body" }).userCallbackCalls =
      [(none, some 200, some "body")] :=
  ⟨rfl, rfl, rfl, rfl, rfl, rfl⟩

/-! ## Configuration state-machine lemmas -/

/-- `_checkLocalProjectId` only ever writes `projectId`. -/
theorem checkLocalProjectId_preserves (jn : String → Bool) (env : ConfigEnv)
    (c : Configuration) :
    (checkLocalProjectId jn env c).initState = c.initState ∧
    (checkLocalProjectId jn env c).initError = c.initError := by
  unfold checkLocalProjectId
  split
  · exact ⟨rfl, rfl⟩
  · split
    · exact ⟨rfl, rfl⟩
    · split
      · exact ⟨rfl, rfl⟩
      · exact ⟨rfl, rfl⟩

/-- `_checkLocalProjectNumber` only ever writes `projectNumber`. -/
theorem checkLocalProjectNumber_preserves (jn : String → Bool) (env : ConfigEnv)
    (c : Configuration) :
    (checkLocalProjectNumber jn env c).initState = c.initState ∧
    (checkLocalProjectNumber jn env c).initError = c.initError := by
  unfold checkLocalProjectNumber
  split
  · exact ⟨rfl, rfl⟩
  · split
    · exact ⟨rfl, rfl⟩
    · split
      · exact ⟨rfl, rfl⟩
      · exact ⟨rfl, rfl⟩

/-- `_checkLocalServiceContext` only ever writes `serviceContext`. -/
theorem checkLocalServiceContext_preserves (env : ConfigEnv) (c : Configuration) :
    (checkLocalServiceContext env c).initState = c.initState ∧
    (checkLocalServiceContext env c).initError = c.initError := by
  unfold checkLocalServiceContext
  split
  · split
    · exact ⟨rfl, rfl⟩
    · exact ⟨rfl, rfl⟩
  · exact ⟨rfl, rfl⟩

/-- The runtime-flag merge only ever writes `reportUncaughtExceptions` and
`key`. -/
theorem mergeGivenRuntimeFlags_preserves (c : Configuration) :
    (mergeGivenRuntimeFlags c).initState = c.initState ∧
    (mergeGivenRuntimeFlags c).initError = c.initError := by
  unfold mergeGivenRuntimeFlags
  split
  · split <;> exact ⟨rfl, rfl⟩
  · exact ⟨rfl, rfl⟩

/-- Local gathering never touches the lifecycle flag or the recorded
settlement error. -/
theorem gather_preserves (jn : String → Bool) (env : ConfigEnv) (c : Configuration) :
    (gatherLocalConfiguration jn env c).initState = c.initState ∧
    (gatherLocalConfiguration jn env c).initError = c.initError := by
  have p1 := checkLocalProjectId_preserves jn env c
  have p2 := checkLocalProjectNumber_preserves jn env (checkLocalProjectId jn env c)
  have p3 := checkLocalServiceContext_preserves env
    (checkLocalProjectNumber jn env (checkLocalProjectId jn env c))
  have p4 := mergeGivenRuntimeFlags_preserves
    (checkLocalServiceContext env
      (checkLocalProjectNumber jn env (checkLocalProjectId jn env c)))
  exact ⟨p4.1.trans (p3.1.trans (p2.1.trans p1.1)),
         p4.2.trans (p3.2.trans (p2.2.trans p1.2))⟩

/-- The metadata assignment step never touches the lifecycle flag or the
recorded settlement error. -/
theorem metadataAssimilate_preserves (err projectNum : JSVal) (c : Configuration) :
    (metadataAssimilate err projectNum c).initState = c.initState ∧
    (metadataAssimilate err projectNum c).initError = c.initError := by
  unfold metadataAssimilate
  split
  · exact ⟨rfl, rfl⟩
  · exact ⟨rfl, rfl⟩

/-- The integrity check is a no-op on an already settled instance. -/
theorem checkConfigurationIntegrity_settled (c : Configuration)
    (h : c.initState = true) :
    checkConfigurationIntegrity c = { config := c, events := [], delivered := [] } := by
  unfold checkConfigurationIntegrity
  rw [h]
  simp

/-- The integrity check on a first settlement attempt: it marks the instance
settled, then emits `error` with a fresh `initError` when both identifiers
are still null and `ready` otherwise. -/
theorem checkConfigurationIntegrity_fresh (c : Configuration)
    (h : c.initState = false) :
    checkConfigurationIntegrity c =
      (if c.projectId.isNone && c.projectNumber.isNone then
        { config := { c with initState := true, initError := some integrityErrorMsg, errorListeners := [] },
          events := [.errorEv integrityErrorMsg],
          delivered := c.errorListeners.map (fun cb => .errorCb cb integrityErrorMsg) }
      else
        { config := { c with initState := true, readyListeners := [] },
          events := [.readyEv],
          delivered := c.readyListeners.map (fun cb => .readyCb cb) }) := by
  unfold checkConfigurationIntegrity
  rw [h]
  simp

/-- After any run of the settlement path the instance is settled. -/
theorem settlementPath_initState_true (jn : String → Bool) (env : ConfigEnv)
    (c : Configuration) :
    (settlementPath jn env c).config.initState = true := by
  unfold settlementPath
  by_cases h : (gatherLocalConfiguration jn env c).initState = true
  · rw [checkConfigurationIntegrity_settled _ h]
    exact h
  · rw [Bool.not_eq_true] at h
    rw [checkConfigurationIntegrity_fresh _ h]
    split
    · rfl
    · rfl

/-- A settlement-path run on an already settled instance emits nothing and
leaves the instance settled. -/
theorem settlementPath_settled (jn : String → Bool) (env : ConfigEnv)
    (c : Configuration) (h : c.initState = true) :
    (settlementPath jn env c).events = [] ∧
    (settlementPath jn env c).config.initState = true := by
  unfold settlementPath
  have hg : (gatherLocalConfiguration jn env c).initState = true :=
    (gather_preserves jn env c).1.trans h
  rw [checkConfigurationIntegrity_settled _ hg]
  exact ⟨rfl, hg⟩

/-- A settlement-path run on a fresh instance emits exactly one event. -/
theorem settlementPath_fresh_events (jn : String → Bool) (env : ConfigEnv)
    (c : Configuration) (h : c.initState = false) :
    (settlementPath jn env c).events.length = 1 := by
  unfold settlementPath
  have hg : (gatherLocalConfiguration jn env c).initState = false :=
    (gather_preserves jn env c).1.trans h
  rw [checkConfigurationIntegrity_fresh _ hg]
  split
  · rfl
  · rfl

/-- Registering a ready listener never changes the settlement state. -/
theorem addReadyListener_preserves (c : Configuration) (cb : Nat) :
    (addReadyListener c cb).1.initState = c.initState ∧
    (addReadyListener c cb).1.initError = c.initError := by
  unfold addReadyListener
  split
  · exact ⟨rfl, rfl⟩
  · split
    · exact ⟨rfl, rfl⟩
    · exact ⟨rfl, rfl⟩

/-- Registering an error listener never changes the settlement state. -/
theorem addErrorListener_preserves (c : Configuration) (cb : Nat) :
    (addErrorListener c cb).1.initState = c.initState ∧
    (addErrorListener c cb).1.initError = c.initError := by
  unfold addErrorListener
  split
  · exact ⟨rfl, rfl⟩
  · split
    · exact ⟨rfl, rfl⟩
    · exact ⟨rfl, rfl⟩

/-- No action sequence emits any event once the instance is settled. -/
theorem runConfigActions_settled (jn : String → Bool) (env : ConfigEnv)
    (acts : List ConfigAction) :
    ∀ c : Configuration, c.initState = true →
      (runConfigActions jn env acts c).2 = [] ∧
      (runConfigActions jn env acts c).1.initState = true := by
  induction acts with
  | nil => exact fun c h => ⟨rfl, h⟩
  | cons a rest ih =>
    intro c h
    cases a with
    | assimilateNumber e p =>
      have hpre : (metadataAssimilate e p c).initState = true :=
        (metadataAssimilate_preserves e p c).1.trans h
      have hs := settlementPath_settled jn env (metadataAssimilate e p c) hpre
      have htail := ih _ hs.2
      simp only [runConfigActions, applyConfigAction, assimilateProjectNumber]
      rw [hs.1, htail.1]
      exact ⟨rfl, htail.2⟩
    | resettle =>
      have hs := settlementPath_settled jn env c h
      have htail := ih _ hs.2
      simp only [runConfigActions, applyConfigAction]
      rw [hs.1, htail.1]
      exact ⟨rfl, htail.2⟩
    | addReady cb =>
      have hs : (addReadyListener c cb).1.initState = true :=
        (addReadyListener_preserves c cb).1.trans h
      have htail := ih _ hs
      simp only [runConfigActions, applyConfigAction]
      rw [htail.1]
      exact ⟨rfl, htail.2⟩
    | addError cb =>
      have hs : (addErrorListener c cb).1.initState = true :=
        (addErrorListener_preserves c cb).1.trans h
      have htail := ih _ hs
      simp only [runConfigActions, applyConfigAction]
      rw [htail.1]
      exact ⟨rfl, htail.2⟩

/-- From a fresh instance, the total number of events emitted over any action
sequence is exactly one when the sequence invokes the settlement path at all,
and zero otherwise. -/
theorem runConfigActions_fresh (jn : String → Bool) (env : ConfigEnv)
    (acts : List ConfigAction) :
    ∀ c : Configuration, c.initState = false →
      (runConfigActions jn env acts c).2.length =
        (if acts.any ConfigAction.isSettlement then 1 else 0) := by
  induction acts with
  | nil => exact fun c _ => rfl
  | cons a rest ih =>
    intro c h
    cases a with
    | assimilateNumber e p =>
      have hpre : (metadataAssimilate e p c).initState = false :=
        (metadataAssimilate_preserves e p c).1.trans h
      have hlen := settlementPath_fresh_events jn env (metadataAssimilate e p c) hpre
      have hst := settlementPath_initState_true jn env (metadataAssimilate e p c)
      have htail := (runConfigActions_settled jn env rest _ hst).1
      simp only [runConfigActions, applyConfigAction, assimilateProjectNumber,
        List.any_cons, ConfigAction.isSettlement, Bool.true_or, if_true,
        List.length_append]
      rw [htail, hlen]
      rfl
    | resettle =>
      have hlen := settlementPath_fresh_events jn env c h
      have hst := settlementPath_initState_true jn env c
      have htail := (runConfigActions_settled jn env rest _ hst).1
      simp only [runConfigActions, applyConfigAction, List.any_cons,
        ConfigAction.isSettlement, Bool.true_or, if_true, List.length_append]
      rw [htail, hlen]
      rfl
    | addReady cb =>
      have hs : (addReadyListener c cb).1.initState = false :=
        (addReadyListener_preserves c cb).1.trans h
      have htail := ih _ hs
      simp only [runConfigActions, applyConfigAction, List.any_cons,
        ConfigAction.isSettlement, Bool.false_or, List.nil_append]
      exact htail
    | addError cb =>
      have hs : (addErrorListener c cb).1.initState = false :=
        (addErrorListener_preserves c cb).1.trans h
      have htail := ih _ hs
      simp only [runConfigActions, applyConfigAction, List.any_cons,
        ConfigAction.isSettlement, Bool.false_or, List.nil_append]
      exact htail

/-- Any two members of a list of length at most one coincide. -/
theorem mem_eq_of_length_le_one {α : Type} (l : List α) (h : l.length ≤ 1) :
    ∀ a ∈ l, ∀ b ∈ l, a = b := by
  match l with
  | [] => exact fun a ha => absurd ha (List.not_mem_nil a)
  | [x] =>
    intro a ha b hb
    rw [List.mem_singleton] at ha hb
    rw [ha, hb]
  | x :: y :: rest => simp at h

/-- Claim C1: over the whole lifetime of a `Configuration` instance — any
interleaving of listener registrations, the metadata callback and
re-invocations of the settlement path, for any environment, numeric-string
semantics and supplied configuration — the number of emitted lifecycle
events is exactly one as soon as the settlement path has run at least once
and zero before, so `ready` and `error` are mutually exclusive, each fires
at most once, and every settlement attempt after the first fires no event
(and, being a total function, does not throw). -/
theorem configuration_lifecycle_events_exactly_once (jn : String → Bool)
    (env : ConfigEnv) (nodeEnvIsProduction : Bool) (givenConfig : Option GivenConfig)
    (acts : List ConfigAction) :
    (runConfigActions jn env acts (mkConfiguration nodeEnvIsProduction givenConfig)).2.length =
      (if acts.any ConfigAction.isSettlement then 1 else 0) ∧
    ∀ e1 ∈ (runConfigActions jn env acts (mkConfiguration nodeEnvIsProduction givenConfig)).2,
      ∀ e2 ∈ (runConfigActions jn env acts (mkConfiguration nodeEnvIsProduction givenConfig)).2,
        e1 = e2 := by
  have hchar := runConfigActions_fresh jn env acts
    (mkConfiguration nodeEnvIsProduction givenConfig) rfl
  refine ⟨hchar, mem_eq_of_length_le_one _ ?_⟩
  rw [hchar]
  split
  · exact Nat.le_refl 1
  · exact Nat.zero_le 1

/-- Witness for C1: a concrete lifetime with a listener registration, the
metadata callback and a redundant re-settlement emits exactly one event, and
any two emitted events coincide. -/
theorem configuration_lifecycle_events_exactly_once_witness :
    (runConfigActions (fun _ => false)
        { gcloudProject := none, gaeModuleName := none, gaeModuleVersion := none }
        [ConfigAction.addReady 3, ConfigAction.assimilateNumber .vundefined (.vnum 1),
         ConfigAction.resettle]
        (mkConfiguration false none)).2.length = 1 ∧
    EventOcc.readyEv = EventOcc.readyEv := by
  have h := configuration_lifecycle_events_exactly_once (fun _ => false)
    { gcloudProject := none, gaeModuleName := none, gaeModuleVersion := none }
    false none
    [ConfigAction.addReady 3, ConfigAction.assimilateNumber .vundefined (.vnum 1),
     ConfigAction.resettle]
  exact ⟨h.1, h.2 EventOcc.readyEv (List.Mem.head _) EventOcc.readyEv (List.Mem.head _)⟩

/-- Claim C2: on the first settlement attempt of a fresh instance — the
metadata callback followed by local gathering and the integrity check —
settlement fails exactly when both `projectId` and `projectNumber` are still
unset afterwards; in that case `initError` is set and the `error` event
carries it, and in every other case the `ready` event fires and `initError`
stays null. -/
theorem configuration_settlement_failure_characterization (jn : String → Bool)
    (env : ConfigEnv) (nodeEnvIsProduction : Bool) (givenConfig : Option GivenConfig)
    (err projectNum : JSVal) :
    (assimilateProjectNumber jn env err projectNum
        (mkConfiguration nodeEnvIsProduction givenConfig)).events =
      (if (assimilateProjectNumber jn env err projectNum
            (mkConfiguration nodeEnvIsProduction givenConfig)).config.projectId.isNone &&
          (assimilateProjectNumber jn env err projectNum
            (mkConfiguration nodeEnvIsProduction givenConfig)).config.projectNumber.isNone then
        [EventOcc.errorEv integrityErrorMsg]
      else [EventOcc.readyEv]) ∧
    (assimilateProjectNumber jn env err projectNum
        (mkConfiguration nodeEnvIsProduction givenConfig)).config.initError =
      (if (assimilateProjectNumber jn env err projectNum
            (mkConfiguration nodeEnvIsProduction givenConfig)).config.projectId.isNone &&
          (assimilateProjectNumber jn env err projectNum
            (mkConfiguration nodeEnvIsProduction givenConfig)).config.projectNumber.isNone then
        some integrityErrorMsg
      else none) := by
  have hms := metadataAssimilate_preserves err projectNum
    (mkConfiguration nodeEnvIsProduction givenConfig)
  have hg := gather_preserves jn env
    (metadataAssimilate err projectNum (mkConfiguration nodeEnvIsProduction givenConfig))
  have hfresh : (gatherLocalConfiguration jn env
      (metadataAssimilate err projectNum
        (mkConfiguration nodeEnvIsProduction givenConfig))).initState = false := by
    rw [hg.1, hms.1]; rfl
  have herr : (gatherLocalConfiguration jn env
      (metadataAssimilate err projectNum
        (mkConfiguration nodeEnvIsProduction givenConfig))).initError = none := by
    rw [hg.2, hms.2]; rfl
  simp only [assimilateProjectNumber, settlementPath]
  simp only [checkConfigurationIntegrity_fresh _ hfresh]
  by_cases hc : ((gatherLocalConfiguration jn env
      (metadataAssimilate err projectNum
        (mkConfiguration nodeEnvIsProduction givenConfig))).projectId.isNone &&
      (gatherLocalConfiguration jn env
        (metadataAssimilate err projectNum
          (mkConfiguration nodeEnvIsProduction givenConfig))).projectNumber.isNone) = true
  · simp [hc]
  · rw [Bool.not_eq_true] at hc
    simp [hc, herr]

/-- Witness for C2: the two concrete settlement outcomes — metadata failure
with nothing local settles to the error event and a set `initError`, and
metadata success settles to the ready event with `initError` still null. -/
theorem configuration_settlement_failure_witness :
    (assimilateProjectNumber (fun _ => false)
        { gcloudProject := none, gaeModuleName := none, gaeModuleVersion := none }
        .vnull .vnull (mkConfiguration false none)).events =
      [EventOcc.errorEv integrityErrorMsg] ∧
    (assimilateProjectNumber (fun _ => false)
        { gcloudProject := none, gaeModuleName := none, gaeModuleVersion := none }
        .vundefined (.vnum 42) (mkConfiguration false none)).events = [EventOcc.readyEv] := by
  have h1 := configuration_settlement_failure_characterization (fun _ => false)
    { gcloudProject := none, gaeModuleName := none, gaeModuleVersion := none }
    false none .vnull .vnull
  have h2 := configuration_settlement_failure_characterization (fun _ => false)
    { gcloudProject := none, gaeModuleName := none, gaeModuleVersion := none }
    false none .vundefined (.vnum 42)
  exact ⟨h1.1, h2.1⟩

/-- Claim C5: a listener attached after settlement is synchronously handed
the cached outcome of the matching kind and nothing otherwise:
`addReadyListener` after a successful settlement calls back immediately with
the instance and is a no-op after a failed one, while `addErrorListener`
after a failed settlement calls back immediately with the settlement error
and is a no-op after a successful one; in each case the instance is left
unchanged. -/
theorem late_listener_synchronous_delivery (c : Configuration) (cb : Nat)
    (hsettled : c.initState = true) :
    (c.initError = none →
      addReadyListener c cb = (c, [Delivery.readyCb cb]) ∧
      addErrorListener c cb = (c, [])) ∧
    (∀ e, c.initError = some e →
      addReadyListener c cb = (c, []) ∧
      addErrorListener c cb = (c, [Delivery.errorCb cb e])) := by
  constructor
  · intro hnone
    unfold addReadyListener addErrorListener
    rw [hsettled, hnone]
    simp
  · intro e he
    unfold addReadyListener addErrorListener
    rw [hsettled, he]
    simp

/-- Witness for C5 on the two concrete settled instances. -/
theorem late_listener_synchronous_delivery_witness :
    (addReadyListener settledReadyExample 7 =
        (settledReadyExample, [Delivery.readyCb 7]) ∧
      addErrorListener settledReadyExample 7 = (settledReadyExample, [])) ∧
    (addReadyListener settledFailedExample 9 = (settledFailedExample, []) ∧
      addErrorListener settledFailedExample 9 =
        (settledFailedExample, [Delivery.errorCb 9 integrityErrorMsg])) := by
  constructor
  · exact (late_listener_synchronous_delivery settledReadyExample 7 rfl).1 rfl
  · exact (late_listener_synchronous_delivery settledFailedExample 9 rfl).2
      integrityErrorMsg rfl

end CloudErrors
